import Mathlib

/-!
Shallow embedding of the HelpDesk ticket subsystem
(apps/tickets/models.py and apps/user_profile/models.py).

Timestamps are modelled as natural numbers; the current time is passed in
explicitly.  The persistent store is a pair of lists (ticket rows keyed by
primary key, comment rows).  Randomness (django.utils.crypto.get_random_string)
is modelled as a stream of draws, and the unbounded retry loop of
generate_ticket_id carries explicit fuel, so a run that never finds a free
identifier is the value none.
-/

/-- UserProfile (apps/user_profile/models.py).  ROLE_CHOICES declares the
lowercase role values user, agent, admin; role is a plain string column with
default USER. -/
structure UserProfile where
  role : String
  first_name : String
  last_name : String
  phone : String
  department : String
deriving DecidableEq, Repr

/-- The role constants of UserProfile.ROLE_CHOICES. -/
def UserProfile.USER : String := "user"

def UserProfile.AGENT : String := "agent"

def UserProfile.ADMIN : String := "admin"

def UserProfile.ROLE_CHOICES : List String :=
  [UserProfile.USER, UserProfile.AGENT, UserProfile.ADMIN]

/-- django.contrib.auth.models.User, with its one-to-one profile attached
(accessed as user.profile in the source). -/
structure AuthUser where
  pk : Nat
  username : String
  first_name : String
  last_name : String
  email : String
  profile : UserProfile
deriving DecidableEq, Repr

/-- django.contrib.auth.models.User.get_full_name: first_name plus last_name
with a space in between, stripped. -/
def AuthUser.get_full_name (u : AuthUser) : String :=
  (u.first_name ++ " " ++ u.last_name).trim

/-- A Ticket row / instance (apps/tickets/models.py, class Ticket).  Foreign
keys are held as user primary keys; the nullable datetime columns due_date,
resolved_at, closed_at are Option Nat. -/
structure Ticket where
  pk : Nat
  ticket_id : String
  title : String
  description : String
  created_by : Nat
  assigned_to : Option Nat
  priority : String
  status : String
  due_date : Option Nat
  resolved_at : Option Nat
  closed_at : Option Nat
deriving DecidableEq, Repr

/-- A Comment row (apps/tickets/models.py, class Comment): ticket and author
are foreign keys, held as primary keys. -/
structure Comment where
  ticket : Nat
  author : Nat
  content : String
  comment_type : String
  is_internal : Bool
deriving DecidableEq, Repr

/-- The persistent store: ticket rows (keyed by Ticket.pk) and comment rows. -/
structure Store where
  tickets : List Ticket
  comments : List Comment
deriving DecidableEq, Repr

/-- The ticket_id values present in the store: what
Ticket.objects.filter(ticket_id=...).exists() consults. -/
def Store.ticketIds (st : Store) : List String :=
  st.tickets.map (fun t => t.ticket_id)

/-- Writing a ticket row (super().save()): update the row with the same
primary key, or insert a new row. -/
def Store.writeTicket (st : Store) (t : Ticket) : Store :=
  if st.tickets.any (fun r => r.pk == t.pk) then
    { st with tickets := st.tickets.map (fun r => if r.pk == t.pk then t else r) }
  else
    { st with tickets := st.tickets ++ [t] }

/-- The stored row with the given primary key, if any. -/
def Store.findTicket (st : Store) (pk : Nat) : Option Ticket :=
  st.tickets.find? (fun r => r.pk == pk)

/-- The allowed characters of the random suffix, as passed to
get_random_string in generate_ticket_id. -/
def suffixChars : List Char := "ABCDEFGHIJKLMNOPQRSTUVWXYZ0123456789".toList

/-- What get_random_string(6, 'A..Z0..9') guarantees of each draw: six
characters, all from the allowed alphabet. -/
def isSuffix (s : String) : Bool :=
  s.length == 6 && s.data.all (fun c => suffixChars.contains c)

/-- The candidate identifier built from a year and a suffix:
the f-string TKT-\x7byear\x7d-\x7brandom_part\x7d. -/
def mkTicketId (year : Nat) (suffix : String) : String :=
  "TKT-" ++ toString year ++ "-" ++ suffix

/-- The retry loop of generate_ticket_id: draw i is the current candidate
suffix; while the candidate exists in the store, draw again.  fuel bounds how
many draws the model inspects; the source imposes no ceiling, so exhausting
fuel (none) stands for a run still looping. -/
def genLoop (year : Nat) (existing : List String) (stream : Nat → String) :
    Nat → Nat → Option String
  | 0, _ => none
  | fuel + 1, i =>
    if existing.contains (mkTicketId year (stream i)) then
      genLoop year existing stream fuel (i + 1)
    else some (mkTicketId year (stream i))

/-- Ticket.generate_ticket_id: build TKT-\x7byear\x7d-\x7b6 random chars\x7d and redraw
while a ticket with that ticket_id exists. -/
def Ticket.generate_ticket_id (fuel : Nat) (stream : Nat → String) (year : Nat)
    (existing : List String) : Option String :=
  genLoop year existing stream fuel 0

/-- Lines 93-94 of Ticket.save: if not self.ticket_id, generate one; an
already set (non-empty) ticket_id is kept. -/
def Ticket.resolveId (fuel : Nat) (stream : Nat → String) (year : Nat)
    (t : Ticket) (st : Store) : Option String :=
  if t.ticket_id = "" then Ticket.generate_ticket_id fuel stream year st.ticketIds
  else some t.ticket_id

/-- Lines 99-100 of Ticket.save: set resolved_at to now when status is
resolved and the field is unset. -/
def Ticket.applyResolvedAt (now : Nat) (t : Ticket) : Ticket :=
  if t.status = "resolved" ∧ t.resolved_at = none then
    { t with resolved_at := some now }
  else t

/-- Lines 102-103 of Ticket.save: set closed_at to now when status is closed
and the field is unset. -/
def Ticket.applyClosedAt (now : Nat) (t : Ticket) : Ticket :=
  if t.status = "closed" ∧ t.closed_at = none then
    { t with closed_at := some now }
  else t

/-- Lines 98-103 of Ticket.save, run after super().save(): the two timestamp
updates in order. -/
def Ticket.applyTimestamps (now : Nat) (t : Ticket) : Ticket :=
  Ticket.applyClosedAt now (Ticket.applyResolvedAt now t)

/-- Ticket.save: assign a ticket_id when unset, write the row to the store
(super().save()), then update the in-memory resolved/closed timestamps.
Note the order: the row is written before the timestamps are backfilled. -/
def Ticket.save (fuel : Nat) (stream : Nat → String) (year now : Nat)
    (t : Ticket) (st : Store) : Option (Ticket × Store) :=
  match Ticket.resolveId fuel stream year t st with
  | none => none
  | some tid =>
    some (Ticket.applyTimestamps now { t with ticket_id := tid },
          st.writeTicket { t with ticket_id := tid })

/-- The column names of the Comment model (including the implicit id primary
key and the auto timestamp columns). -/
def commentFieldNames : List String :=
  ["id", "ticket", "author", "content", "comment_type", "is_internal",
   "created_at", "updated_at"]

/-- The keyword names Ticket.assign_to_agent passes to
Comment.objects.create (lines 136-141). -/
def assignCommentKwargNames : List String :=
  ["ticket", "user", "comment_type", "content"]

/-- Django Model.__init__ raises TypeError when a keyword names no field of
the model; this holds exactly when every passed keyword is a field name. -/
def assignCommentKwargsValid : Bool :=
  assignCommentKwargNames.all (fun k => commentFieldNames.contains k)

/-- The outcome of a Python call: a returned value or a raised exception. -/
inductive PyOutcome where
  | returns (value : Bool)
  | raises (exc : String)
deriving DecidableEq, Repr

/-- Ticket.assign_to_agent: when agent.profile.role is in ['AGENT', 'ADMIN'],
set assigned_to, save the ticket, then create a system comment authored by
assigned_by or agent and return True; otherwise return False.  The result is
the in-memory ticket, the store, and the call's outcome; none stands for a
save whose identifier generation is still looping. -/
def Ticket.assign_to_agent (fuel : Nat) (stream : Nat → String) (year now : Nat)
    (t : Ticket) (st : Store) (agent : AuthUser) (assigned_by : Option AuthUser) :
    Option (Ticket × Store × PyOutcome) :=
  if agent.profile.role ∈ (["AGENT", "ADMIN"] : List String) then
    match Ticket.save fuel stream year now { t with assigned_to := some agent.pk } st with
    | none => none
    | some (t2, st1) =>
      if assignCommentKwargsValid then
        some (t2,
          { st1 with comments := st1.comments ++
            [{ ticket := t2.pk
               author := (assigned_by.getD agent).pk
               content := "Ticket assigned to " ++
                 (if agent.get_full_name = "" then agent.username
                  else agent.get_full_name)
               comment_type := "system"
               is_internal := false }] },
          PyOutcome.returns true)
      else
        some (t2, st1, PyOutcome.raises "TypeError")
  else
    some (t, st, PyOutcome.returns false)

/-- Ticket.time_to_resolution: resolved_at minus created_at when resolved_at
is set (created_at passed in, as it is an auto column not modelled on the
row). -/
def Ticket.time_to_resolution (t : Ticket) (created_at : Nat) : Option Int :=
  match t.resolved_at with
  | some r => some ((r : Int) - (created_at : Int))
  | none => none

example : assignCommentKwargsValid = false := by decide

example : isSuffix "ABC123" = true := by decide

example : mkTicketId 2025 "ABC123" = "TKT-2025-ABC123" := by rfl

/-! Concrete fixtures used by the evaluation theorems and witnesses. -/

/-- A profile whose role is the declared AGENT value, lowercase agent. -/
def profAgent : UserProfile :=
  { role := "agent", first_name := "Ann", last_name := "Smith",
    phone := "", department := "" }

/-- A profile whose role is the declared USER value. -/
def profUser : UserProfile :=
  { role := "user", first_name := "Cal", last_name := "Doe",
    phone := "", department := "" }

/-- A profile whose role is the literal uppercase string AGENT that
assign_to_agent compares against (no ROLE_CHOICES value). -/
def profUpper : UserProfile :=
  { role := "AGENT", first_name := "Bob", last_name := "Jones",
    phone := "", department := "" }

/-- A user whose profile role is agent (the legal assignee role). -/
def agentUser : AuthUser :=
  { pk := 7, username := "ann", first_name := "Ann", last_name := "Smith",
    email := "ann@example.com", profile := profAgent }

/-- A user whose profile role is user. -/
def plainUser : AuthUser :=
  { pk := 9, username := "cal", first_name := "Cal", last_name := "Doe",
    email := "cal@example.com", profile := profUser }

/-- A user whose profile role is the uppercase literal AGENT. -/
def upperAgentUser : AuthUser :=
  { pk := 8, username := "bob", first_name := "Bob", last_name := "Jones",
    email := "bob@example.com", profile := profUpper }

/-- A stored open ticket with its identifier already assigned. -/
def ticket0 : Ticket :=
  { pk := 1, ticket_id := "TKT-2025-AAAAAA", title := "Printer down",
    description := "The office printer does not respond.", created_by := 2,
    assigned_to := none, priority := "medium", status := "open",
    due_date := none, resolved_at := none, closed_at := none }

/-- A store holding exactly ticket0 and no comments. -/
def store0 : Store := { tickets := [ticket0], comments := [] }

/-- The empty store. -/
def storeEmpty : Store := { tickets := [], comments := [] }

/-- A constant draw stream; its draw is a well-formed suffix. -/
def streamB : Nat → String := fun _ => "BBBBBB"

/-- A constant draw stream whose candidate always collides with ticket0. -/
def streamA : Nat → String := fun _ => "AAAAAA"

/-- ticket0 already resolved in status but with resolved_at still unset. -/
def ticketRes : Ticket := { ticket0 with status := "resolved" }

/-- ticketRes after its first save backfills resolved_at at time 100. -/
def ticketResAfter : Ticket := { ticketRes with resolved_at := some 100 }

/-- The store after the first save of ticketRes into the empty store. -/
def storeRes1 : Store := { tickets := [ticketRes], comments := [] }

/-- The store after the second save of the same instance. -/
def storeRes2 : Store := { tickets := [ticketResAfter], comments := [] }

/-- A ticket already resolved at time 5 that is now being closed: resolved_at
is set, closed_at still unset, status closed. -/
def ticketResClosed : Ticket :=
  { ticket0 with status := "closed", resolved_at := some 5 }

/-- ticketResClosed after a save at time 100 backfills closed_at. -/
def ticketResClosedAfter : Ticket := { ticketResClosed with closed_at := some 100 }

/-- ticket0 already closed in status but with closed_at still unset. -/
def ticketClo : Ticket := { ticket0 with status := "closed" }

/-- ticketClo after its first save backfills closed_at at time 100. -/
def ticketCloAfter : Ticket := { ticketClo with closed_at := some 100 }

/-- The store after the first save of ticketClo into the empty store. -/
def storeClo1 : Store := { tickets := [ticketClo], comments := [] }

/-- The store after the second save of the same instance. -/
def storeClo2 : Store := { tickets := [ticketCloAfter], comments := [] }

/-- C1.  The claim reads: for every user whose profile role is agent or
admin, assign_to_agent returns true and sets assigned_to.  The code compares
the role against the uppercase literals AGENT and ADMIN, while ROLE_CHOICES
declares the lowercase values agent and admin, so for a user whose role is
the declared agent value the call returns False and mutates nothing: the
claim fails on the code (the check can never accept a legal role value). -/
theorem assign_role_case_mismatch :
    Ticket.assign_to_agent 5 streamB 2025 100 ticket0 store0 agentUser none
      = some (ticket0, store0, PyOutcome.returns false) ∧
    agentUser.profile.role = UserProfile.AGENT := by
  constructor
  · rfl
  · rfl

/-- C2.  On the path where the role check passes, Comment.objects.create is
called with the keyword user, which names no field of Comment (the field is
author), so the call raises TypeError: no comment is ever appended and True
is never returned.  Evaluated at a user whose role is the uppercase literal
the check accepts. -/
theorem assign_comment_kwarg_raises :
    Ticket.assign_to_agent 5 streamB 2025 100 ticket0 store0 upperAgentUser none
      = some ({ ticket0 with assigned_to := some 8 },
              { tickets := [{ ticket0 with assigned_to := some 8 }], comments := [] },
              PyOutcome.raises "TypeError") := by
  rfl

/-- C4.  The same run shows assign_to_agent is not atomic: the ticket row in
the store already carries the assignment (assigned_to = some 8) while the
comment creation has failed (the outcome is a raised TypeError and the
comment list is still empty). -/
theorem assign_not_atomic :
    (Ticket.assign_to_agent 5 streamB 2025 100 ticket0 store0 upperAgentUser none).map
        (fun r => ((r.2.1.findTicket 1).map Ticket.assigned_to,
                   r.2.1.comments.length, r.2.2))
      = some (some (some 8), 0, PyOutcome.raises "TypeError") := by
  rfl

/-- C5.  For every ticket, store and caller, assigning to a user whose
profile role is user returns False without raising and leaves both the
in-memory ticket and the store (hence assigned_to and the comment list)
unchanged. -/
theorem assign_user_role_returns_false (fuel : Nat) (stream : Nat → String)
    (year now : Nat) (t : Ticket) (st : Store) (agent : AuthUser)
    (assigned_by : Option AuthUser) (h : agent.profile.role = "user") :
    Ticket.assign_to_agent fuel stream year now t st agent assigned_by
      = some (t, st, PyOutcome.returns false) := by
  unfold Ticket.assign_to_agent
  rw [if_neg]
  simp [h]

/-- Witness for C5 at a concrete ticket, store and user. -/
theorem assign_user_role_returns_false_at :
    Ticket.assign_to_agent 1 streamB 2025 100 ticket0 store0 plainUser none
      = some (ticket0, store0, PyOutcome.returns false) :=
  assign_user_role_returns_false 1 streamB 2025 100 ticket0 store0 plainUser none rfl

/-! Characterisation lemmas for save and its pieces. -/

theorem applyTimestamps_resolved_at (now : Nat) (t : Ticket) :
    (Ticket.applyTimestamps now t).resolved_at =
      if t.status = "resolved" ∧ t.resolved_at = none then some now
      else t.resolved_at := by
  by_cases h1 : t.status = "resolved" ∧ t.resolved_at = none <;>
    by_cases h2 : t.status = "closed" ∧ t.closed_at = none <;>
      simp [Ticket.applyTimestamps, Ticket.applyResolvedAt, Ticket.applyClosedAt,
        h1, h2]

theorem applyTimestamps_closed_at (now : Nat) (t : Ticket) :
    (Ticket.applyTimestamps now t).closed_at =
      if t.status = "closed" ∧ t.closed_at = none then some now
      else t.closed_at := by
  by_cases h1 : t.status = "resolved" ∧ t.resolved_at = none <;>
    by_cases h2 : t.status = "closed" ∧ t.closed_at = none <;>
      simp [Ticket.applyTimestamps, Ticket.applyResolvedAt, Ticket.applyClosedAt,
        h1, h2]

theorem applyTimestamps_fields (now : Nat) (t : Ticket) :
    (Ticket.applyTimestamps now t).pk = t.pk ∧
    (Ticket.applyTimestamps now t).ticket_id = t.ticket_id ∧
    (Ticket.applyTimestamps now t).status = t.status ∧
    (Ticket.applyTimestamps now t).assigned_to = t.assigned_to := by
  by_cases h1 : t.status = "resolved" ∧ t.resolved_at = none <;>
    by_cases h2 : t.status = "closed" ∧ t.closed_at = none <;>
      simp [Ticket.applyTimestamps, Ticket.applyResolvedAt, Ticket.applyClosedAt,
        h1, h2]

theorem save_some_spec {fuel : Nat} {stream : Nat → String} {year now : Nat}
    {t : Ticket} {st : Store} {t' : Ticket} {st' : Store}
    (h : Ticket.save fuel stream year now t st = some (t', st')) :
    ∃ tid, Ticket.resolveId fuel stream year t st = some tid ∧
      t' = Ticket.applyTimestamps now { t with ticket_id := tid } ∧
      st' = st.writeTicket { t with ticket_id := tid } := by
  unfold Ticket.save at h
  split at h
  · exact absurd h (by simp)
  · rename_i tid heq
    refine ⟨tid, heq, ?_, ?_⟩ <;>
      simp only [Option.some.injEq, Prod.mk.injEq] at h
    · exact h.1.symm
    · exact h.2.symm

theorem resolveId_some {fuel : Nat} {stream : Nat → String} {year : Nat}
    {t : Ticket} {st : Store} {tid : String}
    (h : Ticket.resolveId fuel stream year t st = some tid) :
    (t.ticket_id = "" ∧
      Ticket.generate_ticket_id fuel stream year st.ticketIds = some tid) ∨
    (t.ticket_id ≠ "" ∧ tid = t.ticket_id) := by
  unfold Ticket.resolveId at h
  split at h
  · exact Or.inl ⟨by assumption, h⟩
  · exact Or.inr ⟨by assumption, by injection h with h'; exact h'.symm⟩

theorem genLoop_some_spec (year : Nat) (existing : List String)
    (stream : Nat → String) :
    ∀ fuel i tid, genLoop year existing stream fuel i = some tid →
      (∃ j, tid = mkTicketId year (stream j)) ∧
      existing.contains tid = false := by
  intro fuel
  induction fuel with
  | zero => intro i tid h; exact absurd h (by simp [genLoop])
  | succ fuel ih =>
    intro i tid h
    unfold genLoop at h
    split at h
    · exact ih (i + 1) tid h
    · rename_i hc
      injection h with h'
      subst h'
      exact ⟨⟨i, rfl⟩, by simpa using hc⟩

theorem mkTicketId_ne_empty (year : Nat) (s : String) : mkTicketId year s ≠ "" := by
  intro h
  have hlen := congrArg String.length h
  have h4 : ("TKT-" : String).length = 4 := rfl
  have h1 : ("-" : String).length = 1 := rfl
  have h0 : ("" : String).length = 0 := rfl
  simp only [mkTicketId, String.length_append, h4, h1, h0] at hlen
  omega

/-- C3.  Every save that returns (create or update alike) backfills
resolved_at (closed_at) with the current time exactly when the status is
resolved (closed) and the field is unset, and never changes a timestamp that
is already set, so a subsequent save in the same status leaves it alone. -/
theorem save_backfills_timestamps (fuel : Nat) (stream : Nat → String)
    (year now : Nat) (t : Ticket) (st : Store) (t' : Ticket) (st' : Store)
    (h : Ticket.save fuel stream year now t st = some (t', st')) :
    (t.status = "resolved" → t.resolved_at = none → t'.resolved_at = some now) ∧
    (t.status = "closed" → t.closed_at = none → t'.closed_at = some now) ∧
    (∀ r, t.resolved_at = some r → t'.resolved_at = some r) ∧
    (∀ c, t.closed_at = some c → t'.closed_at = some c) := by
  obtain ⟨tid, -, rfl, -⟩ := save_some_spec h
  refine ⟨?_, ?_, ?_, ?_⟩
  · intro hs hr
    rw [applyTimestamps_resolved_at]
    simp [hs, hr]
  · intro hs hc
    rw [applyTimestamps_closed_at]
    simp [hs, hc]
  · intro r hr
    rw [applyTimestamps_resolved_at]
    simp [hr]
  · intro c hc
    rw [applyTimestamps_closed_at]
    simp [hc]

/-- Witness for C3: saving a resolved ticket with resolved_at unset yields
the instance with resolved_at backfilled to the save time. -/
theorem save_backfills_timestamps_at :
    ticketResAfter.resolved_at = some 100 ∧ ticketResAfter.closed_at = none :=
  ⟨(save_backfills_timestamps 1 streamB 2025 100 ticketRes storeEmpty
      ticketResAfter storeRes1 rfl).1 rfl rfl, rfl⟩

/-- Where assign_to_agent can leave the in-memory ticket: either untouched
(role rejected) or the saved instance with assigned_to set. -/
theorem assign_some_cases {fuel : Nat} {stream : Nat → String} {year now : Nat}
    {t : Ticket} {st : Store} {agent : AuthUser} {assigned_by : Option AuthUser}
    {ta : Ticket} {sta : Store} {o : PyOutcome}
    (ha : Ticket.assign_to_agent fuel stream year now t st agent assigned_by
      = some (ta, sta, o)) :
    ta = t ∨ ∃ tid, ta = Ticket.applyTimestamps now
      { t with assigned_to := some agent.pk, ticket_id := tid } := by
  unfold Ticket.assign_to_agent at ha
  split at ha
  · split at ha
    · exact absurd ha (by simp)
    · rename_i t2 st1 heq
      obtain ⟨tid, -, hps, -⟩ := save_some_spec heq
      right
      refine ⟨tid, ?_⟩
      split at ha <;>
        · simp only [Option.some.injEq, Prod.mk.injEq] at ha
          rw [← ha.1, hps]
  · left
    simp only [Option.some.injEq, Prod.mk.injEq] at ha
    exact ha.1.symm

/-- C6.  Each timestamp, once set, is stable independently of the other: for
any save and any assign_to_agent call on the ticket, whatever its current
status (also one that has moved away from resolved/closed, or a resolved
ticket that is only now being closed), a set resolved_at survives unchanged,
and likewise a set closed_at. -/
theorem timestamps_stable (fuel : Nat) (stream : Nat → String) (year now : Nat)
    (t : Ticket) (st : Store) (agent : AuthUser) (assigned_by : Option AuthUser)
    (t' : Ticket) (st' : Store) (ta : Ticket) (sta : Store) (o : PyOutcome)
    (hs : Ticket.save fuel stream year now t st = some (t', st'))
    (ha : Ticket.assign_to_agent fuel stream year now t st agent assigned_by
      = some (ta, sta, o)) :
    (∀ r, t.resolved_at = some r → t'.resolved_at = some r ∧ ta.resolved_at = some r) ∧
    (∀ c, t.closed_at = some c → t'.closed_at = some c ∧ ta.closed_at = some c) := by
  obtain ⟨tid, -, rfl, -⟩ := save_some_spec hs
  refine ⟨?_, ?_⟩
  · intro r hr
    constructor
    · rw [applyTimestamps_resolved_at]; simp [hr]
    · rcases assign_some_cases ha with rfl | ⟨tid2, rfl⟩
      · exact hr
      · rw [applyTimestamps_resolved_at]; simp [hr]
  · intro c hc
    constructor
    · rw [applyTimestamps_closed_at]; simp [hc]
    · rcases assign_some_cases ha with rfl | ⟨tid2, rfl⟩
      · exact hc
      · rw [applyTimestamps_closed_at]; simp [hc]

/-- Witness for C6: a resolved-but-not-closed ticket that is being closed
(status closed, closed_at still unset) keeps its resolved_at across the save
that backfills closed_at, and across an assignment attempt. -/
theorem timestamps_stable_at :
    ticketResClosedAfter.resolved_at = some 5 ∧
    ticketResClosed.resolved_at = some 5 :=
  (timestamps_stable 1 streamB 2025 100 ticketResClosed storeEmpty plainUser none
    ticketResClosedAfter { tickets := [ticketResClosed], comments := [] }
    ticketResClosed storeEmpty (PyOutcome.returns false) rfl rfl).1 5 rfl

/-- C8.  Whenever save returns, the ticket's identifier is non-empty before
the row is written (the row written is the instance with that identifier),
and a save of a ticket whose identifier is already set never regenerates or
changes it. -/
theorem ticket_id_before_write_and_stable (fuel : Nat) (stream : Nat → String)
    (year now : Nat) (t : Ticket) (st : Store) (t' : Ticket) (st' : Store)
    (h : Ticket.save fuel stream year now t st = some (t', st')) :
    t'.ticket_id ≠ "" ∧
    st' = st.writeTicket { t with ticket_id := t'.ticket_id } ∧
    (t.ticket_id ≠ "" → t'.ticket_id = t.ticket_id) := by
  obtain ⟨tid, hres, rfl, rfl⟩ := save_some_spec h
  have hid : (Ticket.applyTimestamps now { t with ticket_id := tid }).ticket_id = tid :=
    (applyTimestamps_fields now _).2.1
  have htid : tid ≠ "" := by
    rcases resolveId_some hres with ⟨-, hgen⟩ | ⟨hne, rfl⟩
    · obtain ⟨⟨j, rfl⟩, -⟩ :=
        genLoop_some_spec year st.ticketIds stream fuel 0 tid hgen
      exact mkTicketId_ne_empty year (stream j)
    · exact hne
  refine ⟨by rw [hid]; exact htid, by rw [hid], ?_⟩
  intro hne
  rw [hid]
  rcases resolveId_some hres with ⟨he, -⟩ | ⟨-, rfl⟩
  · exact absurd he hne
  · rfl

/-- Witness for C8: saving a ticket whose identifier is already set keeps
the identifier and writes that very row. -/
theorem ticket_id_before_write_and_stable_at :
    ticket0.ticket_id ≠ "" ∧
    store0 = store0.writeTicket { ticket0 with ticket_id := ticket0.ticket_id } ∧
    (ticket0.ticket_id ≠ "" → ticket0.ticket_id = ticket0.ticket_id) :=
  ticket_id_before_write_and_stable 1 streamB 2025 100 ticket0 store0
    ticket0 store0 rfl

/-- A resolveId result is never the empty string: a kept identifier was
non-empty by the branch condition, and a generated one starts with TKT-. -/
theorem resolveId_ne_empty {fuel : Nat} {stream : Nat → String} {year : Nat}
    {t : Ticket} {st : Store} {tid : String}
    (h : Ticket.resolveId fuel stream year t st = some tid) : tid ≠ "" := by
  rcases resolveId_some h with ⟨-, hgen⟩ | ⟨hne, rfl⟩
  · obtain ⟨⟨j, rfl⟩, -⟩ :=
      genLoop_some_spec year st.ticketIds stream fuel 0 tid hgen
    exact mkTicketId_ne_empty year (stream j)
  · exact hne

theorem find?_map_upsert (u : Ticket) :
    ∀ l : List Ticket, l.any (fun r => r.pk == u.pk) = true →
      (l.map (fun r => if r.pk == u.pk then u else r)).find?
          (fun r => r.pk == u.pk) = some u := by
  intro l
  induction l with
  | nil => intro h; simp at h
  | cons r rs ih =>
    intro h
    by_cases hr : (r.pk == u.pk) = true
    · rw [List.map_cons, if_pos hr, List.find?_cons_of_pos _ (by simp)]
    · have hb : (r.pk == u.pk) = false := by simpa using hr
      simp only [List.map_cons, hb, Bool.false_eq_true, if_false]
      rw [List.find?_cons_of_neg _ (by simp [hb])]
      apply ih
      simpa [List.any_cons, hb] using h

theorem find?_append_single (u : Ticket) :
    ∀ l : List Ticket, l.any (fun r => r.pk == u.pk) = false →
      (l ++ [u]).find? (fun r => r.pk == u.pk) = some u := by
  intro l
  induction l with
  | nil => intro h; simp [List.find?]
  | cons r rs ih =>
    intro h
    simp only [List.any_cons, Bool.or_eq_false_iff] at h
    rw [List.cons_append, List.find?_cons_of_neg _ (by simp [h.1])]
    exact ih h.2

/-- After writing a row, looking its primary key up in the store returns
exactly that row. -/
theorem findTicket_writeTicket (st : Store) (u : Ticket) :
    (st.writeTicket u).findTicket u.pk = some u := by
  unfold Store.writeTicket Store.findTicket
  split
  · exact find?_map_upsert u st.tickets (by assumption)
  · rename_i hany
    exact find?_append_single u st.tickets (by
      cases hv : st.tickets.any (fun r => r.pk == u.pk)
      · rfl
      · exact absurd hv hany)

/-- C10.  A save writes the row before backfilling either timestamp, so for
a ticket saved while resolved (closed) with resolved_at (closed_at) unset,
the row written by that very save still has the timestamp unset while the
in-memory instance carries some now, and the stored row acquires the
timestamp only on the next save of that instance (the row the first save
writes is the pre-backfill instance; the row the second save writes is the
backfilled one). -/
theorem save_row_lags_timestamp (fuel : Nat) (stream : Nat → String)
    (year now now' : Nat) (t : Ticket) (st : Store) (t' : Ticket) (st' : Store)
    (t'' : Ticket) (st'' : Store)
    (h1 : Ticket.save fuel stream year now t st = some (t', st'))
    (h2 : Ticket.save fuel stream year now' t' st' = some (t'', st'')) :
    (st'.findTicket t.pk = some { t with ticket_id := t'.ticket_id } ∧
     st''.findTicket t.pk = some t') ∧
    (t.status = "resolved" → t.resolved_at = none →
      ({ t with ticket_id := t'.ticket_id } : Ticket).resolved_at = none ∧
      t'.resolved_at = some now ∧ t''.resolved_at = some now) ∧
    (t.status = "closed" → t.closed_at = none →
      ({ t with ticket_id := t'.ticket_id } : Ticket).closed_at = none ∧
      t'.closed_at = some now ∧ t''.closed_at = some now) := by
  obtain ⟨tid, hres, ht', hst'⟩ := save_some_spec h1
  have hid : t'.ticket_id = tid := by
    rw [ht']
    exact (applyTimestamps_fields now _).2.1
  have hpk : t'.pk = t.pk := by
    rw [ht']
    exact (applyTimestamps_fields now _).1
  obtain ⟨tid2, hres2, ht'', hst''⟩ := save_some_spec h2
  have htid2 : tid2 = t'.ticket_id := by
    unfold Ticket.resolveId at hres2
    rw [if_neg (by rw [hid]; exact resolveId_ne_empty hres)] at hres2
    injection hres2 with h'
    exact h'.symm
  have ht''eta : t'' = Ticket.applyTimestamps now' t' := by
    rw [ht'', htid2]
  refine ⟨⟨?_, ?_⟩, ?_, ?_⟩
  · rw [hst', hid]
    exact findTicket_writeTicket st { t with ticket_id := tid }
  · rw [hst'', htid2, ← hpk]
    exact findTicket_writeTicket st' t'
  · intro hstatus hr
    have hres' : t'.resolved_at = some now := by
      rw [ht', applyTimestamps_resolved_at]
      simp [hstatus, hr]
    refine ⟨hr, hres', ?_⟩
    rw [ht''eta, applyTimestamps_resolved_at]
    simp [hres']
  · intro hstatus hc
    have hclo' : t'.closed_at = some now := by
      rw [ht', applyTimestamps_closed_at]
      simp [hstatus, hc]
    refine ⟨hc, hclo', ?_⟩
    rw [ht''eta, applyTimestamps_closed_at]
    simp [hclo']

/-- Witness for C10 at a concrete resolved ticket and a concrete closed
ticket, each saved twice. -/
theorem save_row_lags_timestamp_at :
    (storeRes1.findTicket ticketRes.pk
       = some { ticketRes with ticket_id := ticketResAfter.ticket_id } ∧
     ({ ticketRes with ticket_id := ticketResAfter.ticket_id } : Ticket).resolved_at
       = none ∧
     ticketResAfter.resolved_at = some 100 ∧
     storeRes2.findTicket ticketRes.pk = some ticketResAfter) ∧
    (({ ticketClo with ticket_id := ticketCloAfter.ticket_id } : Ticket).closed_at
       = none ∧
     ticketCloAfter.closed_at = some 100 ∧
     storeClo2.findTicket ticketClo.pk = some ticketCloAfter) := by
  have hres := save_row_lags_timestamp 1 streamB 2025 100 200 ticketRes storeEmpty
    ticketResAfter storeRes1 ticketResAfter storeRes2 rfl rfl
  have hclo := save_row_lags_timestamp 1 streamB 2025 100 200 ticketClo storeEmpty
    ticketCloAfter storeClo1 ticketCloAfter storeClo2 rfl rfl
  exact ⟨⟨hres.1.1, (hres.2.1 rfl rfl).1, (hres.2.1 rfl rfl).2.1, hres.1.2⟩,
         ⟨(hclo.2.2 rfl rfl).1, (hclo.2.2 rfl rfl).2.1, hclo.1.2⟩⟩

/-! The length of the decimal rendering of the year. -/

theorem toDigitsCore_length_digits :
    ∀ (f n : Nat) (l : List Char), n < f → 0 < n →
      (Nat.toDigitsCore 10 f n l).length = (Nat.digits 10 n).length + l.length := by
  intro f
  induction f with
  | zero => intro n l h1 h2; omega
  | succ f ih =>
    intro n l h1 h2
    simp only [Nat.toDigitsCore]
    by_cases h0 : n / 10 = 0
    · rw [if_pos h0, Nat.digits_def' (by norm_num : 1 < 10) h2, h0]
      simp
      omega
    · rw [if_neg h0]
      have hlt : n / 10 < n := Nat.div_lt_self h2 (by norm_num)
      rw [ih (n / 10) _ (by omega) (Nat.pos_of_ne_zero h0)]
      rw [Nat.digits_def' (by norm_num : 1 < 10) h2]
      simp only [List.length_cons]
      omega

theorem repr_length_eq_digits_length (n : Nat) (h : 0 < n) :
    (Nat.repr n).length = (Nat.digits 10 n).length := by
  show (Nat.toDigitsCore 10 (n + 1) n []).length = _
  rw [toDigitsCore_length_digits (n + 1) n [] (by omega) h]
  simp

theorem repr_length_four (n : Nat) (h1 : 1000 ≤ n) (h2 : n ≤ 9999) :
    (Nat.repr n).length = 4 := by
  rw [repr_length_eq_digits_length n (by omega)]
  rw [Nat.digits_len 10 n (by norm_num) (by omega)]
  have hlog : Nat.log 10 n = 3 :=
    Nat.log_eq_of_pow_le_of_lt_pow (by norm_num; omega) (by norm_num; omega)
  omega

/-- C7.  Whenever generate_ticket_id returns, the identifier is
TKT-(4-digit year)-(6 chars from A-Z0-9) for the current year, and no ticket
existing in the store at generation time carries it. -/
theorem generated_id_format_unique (fuel : Nat) (stream : Nat → String)
    (year : Nat) (st : Store) (tid : String)
    (hstream : ∀ i, isSuffix (stream i) = true)
    (hy1 : 1000 ≤ year) (hy2 : year ≤ 9999)
    (hgen : Ticket.generate_ticket_id fuel stream year st.ticketIds = some tid) :
    (∃ s, isSuffix s = true ∧ tid = "TKT-" ++ toString year ++ "-" ++ s) ∧
    (toString year).length = 4 ∧
    ∀ u ∈ st.tickets, u.ticket_id ≠ tid := by
  obtain ⟨⟨j, rfl⟩, hfree⟩ :=
    genLoop_some_spec year st.ticketIds stream fuel 0 tid hgen
  refine ⟨⟨stream j, hstream j, rfl⟩, repr_length_four year hy1 hy2, ?_⟩
  intro u hu hh
  have hnot : mkTicketId year (stream j) ∉ st.ticketIds := by simpa using hfree
  exact hnot (hh ▸ List.mem_map_of_mem (fun r => r.ticket_id) hu)

/-- Witness for C7 at a concrete store and draw stream. -/
theorem generated_id_format_unique_at :
    (∃ s, isSuffix s = true ∧
      "TKT-2025-BBBBBB" = "TKT-" ++ toString 2025 ++ "-" ++ s) ∧
    (toString 2025).length = 4 ∧
    ∀ u ∈ store0.tickets, u.ticket_id ≠ "TKT-2025-BBBBBB" :=
  generated_id_format_unique 1 streamB 2025 store0 "TKT-2025-BBBBBB"
    (fun _ => rfl) (by norm_num) (by norm_num) rfl

/-! The termination claim for generate_ticket_id. -/

/-- The claim as stated: whenever some well-formed suffix is still free in
the store, the retry loop terminates (returns within some finite number of
draws), for every draw stream. -/
def claimNineStatement : Prop :=
  ∀ (stream : Nat → String) (year : Nat) (st : Store),
    (∀ i, isSuffix (stream i) = true) →
    (∃ s, isSuffix s = true ∧
      st.ticketIds.contains (mkTicketId year s) = false) →
    ∃ fuel tid, Ticket.generate_ticket_id fuel stream year st.ticketIds = some tid

theorem genLoop_none_of_all_collide (year : Nat) (existing : List String)
    (stream : Nat → String)
    (h : ∀ j, existing.contains (mkTicketId year (stream j)) = true) :
    ∀ fuel i, genLoop year existing stream fuel i = none := by
  intro fuel
  induction fuel with
  | zero => intro i; rfl
  | succ fuel ih =>
    intro i
    unfold genLoop
    rw [if_pos (h i)]
    exact ih (i + 1)

/-- C9 counterexample.  The claim fails as stated: a free suffix existing in
the store does not make the loop terminate, because the draws decide
termination.  With the store holding TKT-2025-AAAAAA and a stream that only
ever draws AAAAAA, the suffix BBBBBB is free yet every draw collides and the
loop never returns. -/
theorem gen_can_loop_forever : ¬ claimNineStatement := by
  intro hclaim
  obtain ⟨fuel, tid, hgen⟩ :=
    hclaim streamA 2025 store0 (fun _ => rfl) ⟨"BBBBBB", rfl, rfl⟩
  unfold Ticket.generate_ticket_id at hgen
  rw [genLoop_none_of_all_collide 2025 store0.ticketIds streamA
    (fun _ => rfl) fuel 0] at hgen
  exact Option.noConfusion hgen

theorem genLoop_reaches_free (year : Nat) (existing : List String)
    (stream : Nat → String) :
    ∀ k i, existing.contains (mkTicketId year (stream (i + k))) = false →
      ∃ tid, genLoop year existing stream (k + 1) i = some tid ∧
        existing.contains tid = false := by
  intro k
  induction k with
  | zero =>
    intro i h
    rw [Nat.add_zero] at h
    refine ⟨mkTicketId year (stream i), ?_, h⟩
    unfold genLoop
    rw [if_neg (by rw [h]; simp)]
  | succ k ih =>
    intro i h
    by_cases hc : existing.contains (mkTicketId year (stream i)) = true
    · have h2 : existing.contains (mkTicketId year (stream ((i + 1) + k))) = false := by
        have he : (i + 1) + k = i + (k + 1) := by omega
        rw [he]
        exact h
      obtain ⟨tid, hgen, hfree⟩ := ih (i + 1) h2
      refine ⟨tid, ?_, hfree⟩
      unfold genLoop
      rw [if_pos hc]
      exact hgen
    · have hc' : existing.contains (mkTicketId year (stream i)) = false := by
        cases hv : existing.contains (mkTicketId year (stream i))
        · rfl
        · exact absurd hv hc
      refine ⟨mkTicketId year (stream i), ?_, hc'⟩
      unfold genLoop
      rw [if_neg (by rw [hc']; simp)]

/-- C9 amended.  generate_ticket_id redraws and rechecks with no retry
ceiling, and it terminates with a non-colliding identifier whenever the draw
stream eventually yields a suffix whose candidate is not already taken in
the store (rather than merely some free suffix existing). -/
theorem gen_terminates_when_draw_frees (stream : Nat → String) (year : Nat)
    (existing : List String)
    (h : ∃ i, existing.contains (mkTicketId year (stream i)) = false) :
    ∃ fuel tid, Ticket.generate_ticket_id fuel stream year existing = some tid ∧
      existing.contains tid = false := by
  obtain ⟨i, hi⟩ := h
  have h0 : existing.contains (mkTicketId year (stream (0 + i))) = false := by
    rw [Nat.zero_add]
    exact hi
  obtain ⟨tid, hgen, hfree⟩ := genLoop_reaches_free year existing stream i 0 h0
  exact ⟨i + 1, tid, hgen, hfree⟩

/-- Witness for the amended C9 at a concrete store and stream. -/
theorem gen_terminates_when_draw_frees_at :
    ∃ fuel tid,
      Ticket.generate_ticket_id fuel streamB 2025 store0.ticketIds = some tid ∧
      store0.ticketIds.contains tid = false :=
  gen_terminates_when_draw_frees streamB 2025 store0.ticketIds ⟨0, rfl⟩
